import Mathlib

/-!
Shallow embedding of the AutoAnalyst-Core pipeline (src/modules/) and proofs
about its specified behaviour.

Conventions of the embedding:
* Python/pandas floats are modelled by `Frac`, an unnormalised fraction of
  integers whose operations keep the denominator positive.  Every value the
  claims mention is produced by exact integer arithmetic from integer data,
  so no floating-point rounding is involved.
* A pandas `DataFrame` is an ordered association list of named columns; a
  column carries its dtype tag and its list of cell values (`Value.null`
  models NaN/NaT/None cells).
* Python strings are Lean `String`s; the string helpers below re-implement
  `str.strip`, slicing and substring tests on `List Char` so that all string
  computations reduce inside the kernel.
* The external text-generation backend and the `exec` of a generated snippet
  are opaque collaborators; they are modelled as explicit parameters
  (`BackendOutcome`, an execution oracle) of the query engine, exactly at the
  call sites where the Python code invokes them.
-/

/-! ## String helpers (Python `str` operations on `List Char`) -/

/-- Whitespace recognised by Python `str.strip`. -/
def isPyWS (c : Char) : Bool :=
  c = ' ' || c = '\t' || c = '\n' || c = '\r' || c = '\x0b' || c = '\x0c'

/-- Python `s.strip()`. -/
def pyStrip (s : String) : String :=
  ⟨((s.toList.dropWhile isPyWS).reverse.dropWhile isPyWS).reverse⟩

/-- Python `s.startswith(p)`. -/
def pyStartsWith (s p : String) : Bool :=
  p.toList.isPrefixOf s.toList

/-- Python `s.endswith(p)`. -/
def pyEndsWith (s p : String) : Bool :=
  p.toList.isSuffixOf s.toList

/-- Python `s[n:]`. -/
def pyDrop (s : String) (n : Nat) : String :=
  ⟨s.toList.drop n⟩

/-- Python `s[:-n]`. -/
def pyDropRight (s : String) (n : Nat) : String :=
  ⟨s.toList.take (s.toList.length - n)⟩

/-- Python `needle in hay` on strings: substring containment. -/
def substrOf (needle hay : String) : Bool :=
  decide (needle.toList <:+: hay.toList)

/-- Python `s.lower()` (ASCII names only appear in the heuristics). -/
def pyLower (s : String) : String :=
  ⟨s.toList.map Char.toLower⟩

/-! ## Exact fractions standing for Python floats

`Frac` is an unnormalised `num / den` pair.  All constructors and operations
used by the embedding keep `den` positive, and comparisons are the
cross-multiplication tests valid for positive denominators. -/

structure Frac where
  num : Int
  den : Int
deriving DecidableEq, Repr

/-- Embed an integer. -/
def Frac.ofInt (n : Int) : Frac := ⟨n, 1⟩

/-- Embed a natural number. -/
def Frac.ofNat (n : Nat) : Frac := ⟨(n : Int), 1⟩

/-- Value equality of fractions (cross multiplication). -/
def Frac.eqv (a b : Frac) : Bool := a.num * b.den == b.num * a.den

/-- Strict order on fractions (cross multiplication, positive denominators). -/
def Frac.blt (a b : Frac) : Bool := decide (a.num * b.den < b.num * a.den)

/-- Non-strict order on fractions. -/
def Frac.ble (a b : Frac) : Bool := decide (a.num * b.den ≤ b.num * a.den)

def Frac.add (a b : Frac) : Frac := ⟨a.num * b.den + b.num * a.den, a.den * b.den⟩

def Frac.sub (a b : Frac) : Frac := ⟨a.num * b.den - b.num * a.den, a.den * b.den⟩

def Frac.mul (a b : Frac) : Frac := ⟨a.num * b.num, a.den * b.den⟩

/-- Division; the sign of the divisor's numerator is moved into the numerator
so the denominator stays positive (callers never divide by zero). -/
def Frac.div (a b : Frac) : Frac :=
  if b.num < 0 then ⟨-(a.num * b.den), -(a.den * b.num)⟩ else ⟨a.num * b.den, a.den * b.num⟩

/-- Floor of a fraction with positive denominator. -/
def Frac.floor (a : Frac) : Int := Int.fdiv a.num a.den

/-! ## Data model: cells, columns, frames -/

/-- A timestamp value: a linear key for chronological comparison plus the
calendar components that `pandas` `.dt` accessors expose (dayofweek uses the
0 = Monday convention). -/
structure Timestamp where
  epoch : Int
  year : Int
  month : Int
  day : Int
  dayofweek : Int
  quarter : Int
  hour : Int
deriving DecidableEq, Repr

/-- One cell of a column.  `null` stands for NaN/NaT/None. -/
inductive Value where
  | int (n : Int)
  | float (x : Frac)
  | text (s : String)
  | boolV (b : Bool)
  | time (t : Timestamp)
  | null
deriving DecidableEq, Repr

/-- Physical storage dtype of a column. -/
inductive Dtype where
  | int64
  | float64
  | object
  | boolean
  | datetime64
  | category
deriving DecidableEq, Repr

/-- Rendering of a dtype, as `str(df[col].dtype)` produces it. -/
def dtypeStr : Dtype → String
  | .int64 => "int64"
  | .float64 => "float64"
  | .object => "object"
  | .boolean => "bool"
  | .datetime64 => "datetime64[ns]"
  | .category => "category"

/-- Numeric dtypes: what `pd.api.types.is_numeric_dtype` / `select_dtypes`
with `np.number` accept. -/
def Dtype.isNumeric : Dtype → Bool
  | .int64 => true
  | .float64 => true
  | _ => false

structure Column where
  dtype : Dtype
  values : List Value
deriving DecidableEq, Repr

/-- A dataframe: ordered association list of named columns. -/
abbrev DataFrame := List (String × Column)

/-- Column names in order. -/
def dfNames (df : DataFrame) : List String := df.map Prod.fst

/-- Row count, `len(df)` (0 for a frame with no columns). -/
def dfLen (df : DataFrame) : Nat :=
  match df with
  | [] => 0
  | c :: _ => c.2.values.length

/-- Numeric reading of a cell (`null` and non-numeric cells read as none;
NaN never compares). -/
def Value.toFrac : Value → Option Frac
  | .int n => some (Frac.ofInt n)
  | .float x => some x
  | _ => none

/-- Value equality of two cells the way pandas compares them (numeric cells
by value, so `1 == 1.0`; `null` equals nothing, mirroring NaN). -/
def Value.veq (a b : Value) : Bool :=
  match a.toFrac, b.toFrac with
  | some x, some y => x.eqv y
  | _, _ =>
    match a, b with
    | .text s, .text t => s == t
    | .boolV x, .boolV y => x == y
    | .time s, .time t => s == t
    | _, _ => false

/-- Non-null cells of a list, in row order (`dropna`). -/
def nonNull (vs : List Value) : List Value :=
  vs.filter (fun v => !(v == Value.null))

/-- Numeric non-null cells of a column, in row order. -/
def numericCells (vs : List Value) : List Frac :=
  vs.filterMap Value.toFrac

/-- Distinct values of a list under `Value.veq`, keeping first occurrences. -/
def dedupVeq : List Value → List Value
  | [] => []
  | v :: vs =>
    let rest := dedupVeq vs
    if rest.any (fun w => v.veq w) then rest else v :: rest

/-- Pandas `nunique()` (distinct non-null values). -/
def nuniqueVals (vs : List Value) : Nat :=
  (dedupVeq (nonNull vs)).length

/-- Column assignment `df[name] = col`: replace in place if the name exists,
otherwise append a new column at the end. -/
def dfAssign (df : DataFrame) (name : String) (c : Column) : DataFrame :=
  if (dfNames df).contains name then
    df.map (fun p => if p.1 = name then (p.1, c) else p)
  else
    df ++ [(name, c)]

/-- Sequential column assignments. -/
def dfAssignMany (df : DataFrame) (ps : List (String × Column)) : DataFrame :=
  ps.foldl (fun d p => dfAssign d p.1 p.2) df

/-! ## Query engine (src/modules/nl_query_engine.py)

The OpenAI client and the dynamic `exec` are external collaborators: the
embedding takes the outcome of the single backend call and an execution
oracle as parameters.  Prompt construction (`get_schema_context` and the two
prompt templates) is total string building that only feeds the opaque
backend, so it is absorbed into the backend's outcome. -/

/-- Outcome of the external text-generation call
(`self.client.chat.completions.create ...` plus reading
`response.choices[0].message.content`): either the call raises, or it
produces the response text. -/
inductive BackendOutcome where
  | raises (msg : String)
  | ok (content : String)

/-- What `local_vars.get('result')` can hold after a successful `exec`:
mirrors the coercion cases of `execute_query_code` lines 152-159. -/
inductive RawResult where
  | frame (d : DataFrame)
  | series (name : String) (c : Column)
  | scalarInt (n : Int)
  | scalarFloat (x : Frac)
  | scalarStr (s : String)
  | other (conv : Option DataFrame)

/-- Outcome of `exec` on a snippet: the snippet raises, or terminates leaving
`result` unassigned (`none`) or assigned a raw value. -/
inductive ExecOutcome where
  | raises
  | value (r : Option RawResult)

/-- An oracle describing what executing a given snippet against a given frame
would do; it abstracts the Python `exec` (line 148). -/
abbrev ExecOracle := String → DataFrame → ExecOutcome

structure HistoryEntry where
  query : String
  code : String
  success : Bool
deriving DecidableEq, Repr

structure NLQueryEngine where
  df : DataFrame
  llm_available : Bool
  query_history : List HistoryEntry

/-- The denylist of nl_query_engine.py line 135. -/
def dangerous_keywords : List String :=
  ["import", "exec", "eval", "compile", "__", "open", "file", "os", "sys"]

/-- Line 136: `any(keyword in code for keyword in dangerous_keywords)`. -/
def containsDangerous (code : String) : Bool :=
  dangerous_keywords.any (fun k => substrOf k code)

/-- Coercion of the executed snippet's `result` (lines 150-159): DataFrames
stay, a Series becomes a one-column frame, scalars become a 1x1 frame under
column `result`, anything else attempts a generic conversion whose failure
(`none`) propagates as the exception caught at line 163. -/
def coerceResult : RawResult → Option DataFrame
  | .frame d => some d
  | .series n c => some [(n, c)]
  | .scalarInt n => some [("result", ⟨Dtype.int64, [Value.int n]⟩)]
  | .scalarFloat x => some [("result", ⟨Dtype.float64, [Value.float x]⟩)]
  | .scalarStr s => some [("result", ⟨Dtype.object, [Value.text s]⟩)]
  | .other conv => conv

/-- Embedding of `NLQueryEngine.execute_query_code` (lines 129-165).  The
second component records whether `exec` was reached, so that "no part of the
snippet runs" is an observable fact of the model. -/
def execute_query_code (oracle : ExecOracle) (df : DataFrame) (code : String) :
    Option DataFrame × Bool :=
  if containsDangerous code then
    (none, false)
  else
    match oracle code df with
    | .raises => (none, true)
    | .value none => (none, true)
    | .value (some r) => (coerceResult r, true)

/-- Markdown fence cleanup of lines 98-106: the response content is stripped,
then a leading "```python" fence, a leading "```" fence and a trailing "```"
fence are removed, re-stripping after each step. -/
def stripFences (content : String) : String :=
  let s := pyStrip content
  let s := if pyStartsWith s ("```python") then pyStrip (pyDrop s ("```python".length)) else s
  let s := if pyStartsWith s ("```") then pyStrip (pyDrop s 3) else s
  let s := if pyEndsWith s ("```") then pyStrip (pyDropRight s 3) else s
  s

/-- Result of one `query` call: the returned triple, the engine state after
the call, and whether `exec` was reached (instrumentation). -/
structure QueryOutcome where
  result : Option DataFrame
  explanation : String
  error : Option String
  engine : NLQueryEngine
  executed : Bool

/-- Embedding of `NLQueryEngine.query` (lines 58-127).  `backend` is the
outcome of the single external call inside the `try` block; it is the only
operation there that can raise. -/
def NLQueryEngine.query (eng : NLQueryEngine) (backend : BackendOutcome)
    (oracle : ExecOracle) (q : String) : QueryOutcome :=
  if !eng.llm_available then
    { result := none
      explanation := "OpenAI API key not configured. Please set OPENAI_API_KEY in .env file."
      error := some ("API_KEY_MISSING")
      engine := eng
      executed := false }
  else
    match backend with
    | .raises msg =>
      { result := none
        explanation := "Error processing query: " ++ msg
        error := some msg
        engine := eng
        executed := false }
    | .ok content =>
      let generated_code := stripFences content
      let r := execute_query_code oracle eng.df generated_code
      { result := r.1
        explanation := "Executed query: " ++ q ++ "\nGenerated code:\n" ++ generated_code
        error := none
        engine := { eng with

            query_history := eng.query_history ++
              [{ query := q, code := generated_code, success := r.1.isSome }] }
        executed := r.2 }

/-! ## Validator (src/modules/data_validation.py) -/

/-- Count of null cells in a column (`df[col].isnull().sum()`). -/
def nullCount (vs : List Value) : Nat :=
  vs.countP (fun v => v == Value.null)

structure MissingDetail where
  count : Nat
  percentage : Frac
deriving DecidableEq, Repr

structure MissingInfo where
  has_missing : Bool
  total_missing : Nat
  columns_with_missing : Nat
  details : List (String × MissingDetail)
deriving DecidableEq, Repr

/-- Embedding of `DataValidator.check_missing_values` (lines 69-85).  The
per-column percentage is only computed for columns that do have a null, so
its divisor `len(df)` is positive there. -/
def check_missing_values (df : DataFrame) : MissingInfo :=
  { has_missing := df.any (fun p => 0 < nullCount p.2.values)
    total_missing := (df.map (fun p => nullCount p.2.values)).sum
    columns_with_missing := df.countP (fun p => 0 < nullCount p.2.values)
    details := (df.filter (fun p => 0 < nullCount p.2.values)).map (fun p =>
      (p.1, { count := nullCount p.2.values
              percentage := ((Frac.ofNat (nullCount p.2.values)).div
                (Frac.ofNat (dfLen df))).mul (Frac.ofNat 100) })) }

/-- Row `i` of the frame, as the list of its cells across columns. -/
def dfRow (df : DataFrame) (i : Nat) : List Value :=
  df.map (fun p => p.2.values.getD i Value.null)

/-- Pandas row equality for `duplicated`: cellwise value equality. -/
def rowEqb (r1 r2 : List Value) : Bool :=
  r1.length == r2.length && (List.zip r1 r2).all (fun q => q.1.veq q.2)

/-- Flags of `df.duplicated()`: row `i` is flagged iff an earlier row equals it. -/
def duplicatedFlags (df : DataFrame) : List Bool :=
  (List.range (dfLen df)).map (fun i =>
    (List.range i).any (fun j => rowEqb (dfRow df j) (dfRow df i)))

structure DuplicateInfo where
  has_duplicates : Bool
  duplicate_count : Nat
  percentage : Option Frac
deriving DecidableEq, Repr

/-- Embedding of `DataValidator.check_duplicates` (lines 87-96).  On a
zero-row frame `duplicates.sum() / len(df)` is numpy `0 / 0`, which yields
NaN (with a runtime warning), modelled by `none`. -/
def check_duplicates (df : DataFrame) : DuplicateInfo :=
  let flags := duplicatedFlags df
  { has_duplicates := flags.any id
    duplicate_count := flags.countP id
    percentage :=
      if dfLen df = 0 then none
      else some (((Frac.ofNat (flags.countP id)).div (Frac.ofNat (dfLen df))).mul
        (Frac.ofNat 100)) }

/-- Insertion into a sorted list of fractions. -/
def insertFrac (x : Frac) : List Frac → List Frac
  | [] => [x]
  | y :: ys => if x.ble y then x :: y :: ys else y :: insertFrac x ys

/-- Ascending value sort of fractions. -/
def sortFracs (xs : List Frac) : List Frac :=
  xs.foldr insertFrac []

/-- Pandas `Series.quantile(p)` with the default linear interpolation over
the non-null values (already extracted by the caller); `none` on an empty
series, where pandas returns NaN. -/
def quantileOpt (vs : List Frac) (p : Frac) : Option Frac :=
  let s := sortFracs vs
  match s with
  | [] => none
  | _ =>
    let pos := p.mul (Frac.ofNat (s.length - 1))
    let lo := pos.floor.toNat
    let fr := pos.sub (Frac.ofInt pos.floor)
    match s.get? lo, s.get? (lo + 1) with
    | some a, some b => some (a.add (fr.mul (b.sub a)))
    | some a, none => some a
    | none, _ => none

structure OutlierDetail where
  count : Nat
  percentage : Frac
  lower_bound : Frac
  upper_bound : Frac
  min_outlier : Frac
  max_outlier : Frac
deriving DecidableEq, Repr

structure OutlierInfo where
  columns_with_outliers : List String
  details : List (String × OutlierDetail)
deriving DecidableEq, Repr

/-- Default IQR multiplier of `check_outliers` (1.5). -/
def iqr_multiplier_default : Frac := ⟨3, 2⟩

/-- One numeric column of `check_outliers`' loop (lines 113-132): Tukey
fences from the interpolated quartiles; `df[(df[col] < lo) | (df[col] > hi)]`
keeps exactly the non-null cells outside the fences (NaN compares false). -/
def outlierStep (n : Nat) (k : Frac) (acc : OutlierInfo) (p : String × Column) :
    OutlierInfo :=
  let vals := numericCells p.2.values
  match quantileOpt vals ⟨1, 4⟩, quantileOpt vals ⟨3, 4⟩ with
  | some q1, some q3 =>
    let iqr := q3.sub q1
    let lower := q1.sub (k.mul iqr)
    let upper := q3.add (k.mul iqr)
    let outliers := vals.filter (fun v => v.blt lower || upper.blt v)
    match outliers with
    | [] => acc
    | _ =>
      { columns_with_outliers := acc.columns_with_outliers ++ [p.1]
        details := acc.details ++ [(p.1,
          { count := outliers.length
            percentage := ((Frac.ofNat outliers.length).div (Frac.ofNat n)).mul
              (Frac.ofNat 100)
            lower_bound := lower
            upper_bound := upper
            min_outlier := (sortFracs outliers).headD ⟨0, 1⟩
            max_outlier := (sortFracs outliers).getLastD ⟨0, 1⟩ })] }
  | _, _ => acc

/-- Embedding of `DataValidator.check_outliers` (lines 98-134). -/
def check_outliers (df : DataFrame) (k : Frac) : OutlierInfo :=
  (df.filter (fun p => p.2.dtype.isNumeric)).foldl (outlierStep (dfLen df) k) ⟨[], []⟩

structure ColChecks where
  dtype : String
  issues : List String
deriving DecidableEq, Repr

structure TypeInfo where
  issues : List String
  column_checks : List (String × ColChecks)
deriving DecidableEq, Repr

/-- Count of cells with a negative numeric value (`df[df[col] < 0]`; NaN
compares false). -/
def negCount (vs : List Value) : Nat :=
  vs.countP (fun v =>
    match v.toFrac with
    | some x => x.blt ⟨0, 1⟩
    | none => false)

/-- The issue text of lines 156 and 172 (both checks render the same text). -/
def mkNegStr (name : String) (cnt : Nat) : String :=
  "Found " ++ toString cnt ++ " negative values in \x27" ++ name ++ "\x27 column"

/-- Findings of the negative-age check (lines 152-158). -/
def ageIssues (name : String) (c : Column) : List String :=
  if substrOf ("age") (pyLower name) && c.dtype.isNumeric && decide (0 < negCount c.values)
  then [mkNegStr name (negCount c.values)] else []

/-- Keywords of the money-like column check (line 168). -/
def moneyKeywords : List String := ["price", "amount", "cost", "salary"]

/-- Findings of the negative-money check (lines 168-174). -/
def moneyIssues (name : String) (c : Column) : List String :=
  if moneyKeywords.any (fun kw => substrOf kw (pyLower name)) && c.dtype.isNumeric
      && decide (0 < negCount c.values)
  then [mkNegStr name (negCount c.values)] else []

/-- Count of timestamp cells strictly later than `now` (line 162; NaT
compares false). -/
def futureCount (now : Int) (vs : List Value) : Nat :=
  vs.countP (fun v =>
    match v with
    | .time t => decide (now < t.epoch)
    | _ => false)

/-- Findings of the future-date check (lines 161-165); these are appended to
the per-column check only, never to the aggregate issue list. -/
def futureIssues (now : Int) (name : String) (c : Column) : List String :=
  if c.dtype == Dtype.datetime64 && decide (0 < futureCount now c.values)
  then ["Found " ++ toString (futureCount now c.values) ++ " future dates in \x27"
        ++ name ++ "\x27 column"] else []

/-- One column of the `check_data_types` loop (lines 145-176): the age issue
is appended to both lists, the future-date finding only to the per-column
list, the money issue again to both, in source order. -/
def typeStep (now : Int) (acc : TypeInfo) (p : String × Column) : TypeInfo :=
  let a := ageIssues p.1 p.2
  let f := futureIssues now p.1 p.2
  let m := moneyIssues p.1 p.2
  { issues := acc.issues ++ a ++ m
    column_checks := acc.column_checks ++
      [(p.1, { dtype := dtypeStr p.2.dtype, issues := a ++ f ++ m })] }

/-- Embedding of `DataValidator.check_data_types` (lines 136-178); `now` is
the evaluation time `pd.Timestamp.now()` made explicit. -/
def check_data_types (now : Int) (df : DataFrame) : TypeInfo :=
  df.foldl (typeStep now) ⟨[], []⟩

structure ValidationResults where
  total_rows : Nat
  total_columns : Nat
  issues : List String
  warnings : List String
  missing_values : MissingInfo
  duplicates : DuplicateInfo
  outliers : OutlierInfo
  type_validation : TypeInfo
deriving DecidableEq, Repr

/-- Embedding of `DataValidator.validate_data` (lines 22-67).  The top-level
`issues` list is initialised empty and - exactly as in the source - nothing
is ever appended to it; the aggregate findings of the semantic checks live in
`type_validation.issues`.  The warnings are the three summary entries of
lines 57-64, in source order. -/
def validate_data (now : Int) (df : DataFrame) : ValidationResults :=
  let missing_check := check_missing_values df
  let duplicate_check := check_duplicates df
  let outlier_check := check_outliers df iqr_multiplier_default
  let type_check := check_data_types now df
  { total_rows := dfLen df
    total_columns := df.length
    issues := []
    warnings :=
      (if missing_check.has_missing then
        ["Found missing values in " ++ toString missing_check.columns_with_missing
          ++ " columns"] else []) ++
      (if 0 < duplicate_check.duplicate_count then
        ["Found " ++ toString duplicate_check.duplicate_count ++ " duplicate rows"]
       else []) ++
      (if !outlier_check.columns_with_outliers.isEmpty then
        ["Found outliers in " ++ toString outlier_check.columns_with_outliers.length
          ++ " columns"] else [])
    missing_values := missing_check
    duplicates := duplicate_check
    outliers := outlier_check
    type_validation := type_check }

/-- State-passing form of a `validate_data` call: the report together with
the dataset as the call leaves it.  Every operation of the source
(`isnull`, `duplicated`, `quantile`, boolean-mask selection, comparisons)
reads the frame and builds fresh objects, so the embedded call hands the
frame back unchanged. -/
def validateRun (now : Int) (df : DataFrame) : ValidationResults × DataFrame :=
  (validate_data now df, df)

/-! ## Schema Inspector (src/modules/data_ingestion.py, detect_schema) -/

/-- Sum of a list of fractions. -/
def sumFracs (xs : List Frac) : Frac :=
  xs.foldl Frac.add ⟨0, 1⟩

/-- Pandas `mean()` over the non-null numeric cells. -/
def meanFracs (xs : List Frac) : Option Frac :=
  match xs with
  | [] => none
  | _ => some ((sumFracs xs).div (Frac.ofNat xs.length))

/-- Pandas `median()` over the non-null numeric cells. -/
def medianFracs (xs : List Frac) : Option Frac :=
  let s := sortFracs xs
  match s with
  | [] => none
  | _ =>
    let n := s.length
    if n % 2 = 1 then s.get? (n / 2)
    else
      match s.get? (n / 2 - 1), s.get? (n / 2) with
      | some a, some b => some ((a.add b).div ⟨2, 1⟩)
      | _, _ => none

/-- Numeric summary of a column.  `std` is a float square root, which has no
exact rational value; the embedding carries the sample variance `stdSq`
(ddof = 1) whose square root the source reports.  It is `none` when the
column has fewer than two non-null values, where pandas `std()` is NaN, and
when the column is all-null, where the source stores Python `None`. -/
structure NumericStats where
  mean : Option Frac
  median : Option Frac
  minV : Option Frac
  maxV : Option Frac
  stdSq : Option Frac
deriving DecidableEq, Repr

/-- Statistics block of `detect_schema` (lines 120-127). -/
def numericStatsOf (vs : List Value) : NumericStats :=
  let xs := numericCells vs
  { mean := meanFracs xs
    median := medianFracs xs
    minV := (sortFracs xs).head?
    maxV := (sortFracs xs).getLast?
    stdSq :=
      match meanFracs xs with
      | none => none
      | some m =>
        if xs.length < 2 then none
        else some ((sumFracs (xs.map (fun x => (x.sub m).mul (x.sub m)))).div
          (Frac.ofNat (xs.length - 1))) }

structure ColInfo where
  dtype : String
  null_count : Nat
  null_percentage : Option Frac
  unique_count : Nat
  sample_values : List Value
  statistics : Option NumericStats
deriving DecidableEq, Repr

structure SchemaInfo where
  columns : List (String × ColInfo)
  total_columns : Nat
  total_rows : Nat
  memory_usage : Nat
deriving DecidableEq, Repr

/-- Embedding of `DataIngestion.detect_schema` (lines 91-131).  `mem` stands
for the external `df.memory_usage(deep=True).sum()` estimate.  On a frame
with zero rows, line 114 computes `df[col].isnull().sum() / len(df) * 100`
as numpy `0 / 0`, which is NaN (not 0 and not an exception); the embedding
records that NaN as `none`. -/
def detect_schema (mem : Nat) (df : DataFrame) : SchemaInfo :=
  { columns := df.map (fun p =>
      (p.1,
        { dtype := dtypeStr p.2.dtype
          null_count := nullCount p.2.values
          null_percentage :=
            if dfLen df = 0 then none
            else some (((Frac.ofNat (nullCount p.2.values)).div
              (Frac.ofNat (dfLen df))).mul (Frac.ofNat 100))
          unique_count := nuniqueVals p.2.values
          sample_values := (nonNull p.2.values).take 3
          statistics :=
            if p.2.dtype.isNumeric then some (numericStatsOf p.2.values) else none }))
    total_columns := df.length
    total_rows := dfLen df
    memory_usage := mem }

/-! ## Feature Engineer (src/modules/feature_engineering.py)

Each pass iterates over a snapshot of column names taken before its loop and
assigns derived columns into the evolving frame, exactly as the source loops
do.  A pass returns the new frame together with the list of column names it
assigned (in order); the list doubles as the pass's `interaction_count`. -/

/-- One step of a pass: compute the pairs the source would assign for the
iteration element `x` from the current frame and the names assigned so far,
then assign them in order. -/
def passStep {α : Type} (pairsOf : DataFrame → List String → α → List (String × Column))
    (acc : DataFrame × List String) (x : α) : DataFrame × List String :=
  let ps := pairsOf acc.1 acc.2 x
  (dfAssignMany acc.1 ps, acc.2 ++ ps.map Prod.fst)

/-- A whole pass over the iteration snapshot `xs`. -/
def runPass {α : Type} (pairsOf : DataFrame → List String → α → List (String × Column))
    (df : DataFrame) (xs : List α) : DataFrame × List String :=
  xs.foldl (passStep pairsOf) (df, [])

/-- Calendar-component column derived from a datetime column: `.dt` accessors
give integers, NaT cells give NaN (which also promotes the derived dtype to
float). -/
def dtComponent (c : Column) (f : Timestamp → Int) : Column :=
  { dtype := if c.values.any (fun v => v == Value.null) then Dtype.float64 else Dtype.int64
    values := c.values.map (fun v =>
      match v with
      | .time t => Value.int (f t)
      | _ => Value.null) }

/-- The hour series of a datetime column, for the `nunique() > 1` test of
line 74. -/
def hourSeries (c : Column) : List Value :=
  c.values.map (fun v =>
    match v with
    | .time t => Value.int t.hour
    | _ => Value.null)

/-- Assignments of one iteration of `extract_date_features` (lines 51-78):
five unconditional components and, when the hour is non-constant, the hour. -/
def datePairs (d : DataFrame) (_assigned : List String) (col : String) :
    List (String × Column) :=
  match List.lookup col d with
  | some c =>
    if c.dtype == Dtype.datetime64 then
      [(col ++ "_year", dtComponent c (fun t => t.year)),
       (col ++ "_month", dtComponent c (fun t => t.month)),
       (col ++ "_day", dtComponent c (fun t => t.day)),
       (col ++ "_dayofweek", dtComponent c (fun t => t.dayofweek)),
       (col ++ "_quarter", dtComponent c (fun t => t.quarter))] ++
      (if 1 < nuniqueVals (hourSeries c) then
        [(col ++ "_hour", dtComponent c (fun t => t.hour))] else [])
    else []
  | none => []

/-- Embedding of `FeatureEngineer.extract_date_features` (lines 45-80). -/
def extract_date_features (df : DataFrame) : DataFrame × List String :=
  runPass datePairs df (dfNames df)

/-- Names of the numeric columns, the `select_dtypes(include=[np.number])`
snapshot a pass iterates over. -/
def numericNames (df : DataFrame) : List String :=
  (df.filter (fun p => p.2.dtype.isNumeric)).map Prod.fst

/-- Drop adjacent value-equal edges of a (sorted) edge list, as
`duplicates='drop'` does. -/
def dedupAdjFrac : List Frac → List Frac
  | [] => []
  | [x] => [x]
  | x :: y :: r => if x.eqv y then dedupAdjFrac (y :: r) else x :: dedupAdjFrac (y :: r)

/-- The five labels passed to `pd.qcut` at line 100. -/
def qcutLabels : List String := ["Q1", "Q2", "Q3", "Q4", "Q5"]

/-- Label of one cell for a successful qcut: bins are right-closed with the
lowest value included, so the label index is the number of interior/upper
edges strictly below the value; an index outside the label list gives NaN. -/
def binLabel (edges : List Frac) (v : Value) : Value :=
  match v.toFrac with
  | some x =>
    let idx := (edges.drop 1).countP (fun e => e.blt x)
    match qcutLabels.get? idx with
    | some l => Value.text l
    | none => Value.null
  | none => Value.null

/-- The `pd.qcut(col, q=5, labels=[Q1..Q5], duplicates='drop')` call of
lines 97-102, as an `Option`: `none` models the call raising.  It raises on
non-numeric input, and - with explicit labels - it raises `ValueError`
("Bin labels must be one fewer than the number of bin edges") whenever
dropping duplicate quantile edges leaves fewer than five bins, so it only
succeeds when the six quantile edges are pairwise distinct. -/
def qcutQ5 (c : Column) : Option Column :=
  if c.dtype.isNumeric then
    let vals := numericCells c.values
    let qs := ([⟨0, 1⟩, ⟨1, 5⟩, ⟨2, 5⟩, ⟨3, 5⟩, ⟨4, 5⟩, ⟨1, 1⟩] : List Frac).filterMap
      (quantileOpt vals)
    let edges := dedupAdjFrac qs
    if edges.length = 6 then
      some { dtype := Dtype.category, values := c.values.map (binLabel edges) }
    else none
  else none

/-- Assignments of one iteration of `create_numeric_bins` (lines 90-106): a
column with fewer than five distinct values is skipped by the guard at line
92; a qcut failure is caught at line 105 and the column is skipped. -/
def binPairs (d : DataFrame) (_assigned : List String) (col : String) :
    List (String × Column) :=
  match List.lookup col d with
  | some c =>
    if nuniqueVals c.values < 5 then []
    else
      match qcutQ5 c with
      | some newc => [(col ++ "_bin", newc)]
      | none => []
  | none => []

/-- Embedding of `FeatureEngineer.create_numeric_bins` (lines 82-108). -/
def create_numeric_bins (df : DataFrame) : DataFrame × List String :=
  runPass binPairs df (numericNames df)

/-- Elementwise ratio cell: NaN propagates through division. -/
def divCell (v1 v2 : Value) : Value :=
  match v1.toFrac, v2.toFrac with
  | some a, some b => Value.float (a.div b)
  | _, _ => Value.null

/-- Ordered pair enumeration of lines 123-127: outer loop over the numeric
snapshot, inner loop over the later entries. -/
def ratioCandidates : List String → List (String × String)
  | [] => []
  | c :: rest => rest.map (fun c2 => (c, c2)) ++ ratioCandidates rest

/-- Assignments of one candidate pair of `create_interactions` (lines
123-138): nothing once five ratios exist (the assigned-name list is the
`interaction_count`), and nothing when the divisor column contains a zero
(`(df[col2] != 0).all()`; NaN passes that test). -/
def interPairs (d : DataFrame) (assigned : List String) (pr : String × String) :
    List (String × Column) :=
  if 5 ≤ assigned.length then []
  else
    match List.lookup pr.1 d, List.lookup pr.2 d with
    | some c1, some c2 =>
      if c2.values.all (fun v =>
          match v.toFrac with
          | some x => !(x.eqv ⟨0, 1⟩)
          | none => true) then
        [(pr.1 ++ "_per_" ++ pr.2,
          { dtype := Dtype.float64, values := List.zipWith divCell c1.values c2.values })]
      else []
    | _, _ => []

/-- Embedding of `FeatureEngineer.create_interactions` (lines 110-140); the
pass only runs when the frame has more than two numeric columns. -/
def create_interactions (df : DataFrame) : DataFrame × List String :=
  let ns := numericNames df
  if 2 < ns.length then runPass interPairs df (ratioCandidates ns) else (df, [])

/-- Embedding of `FeatureEngineer.auto_engineer_features` (lines 21-43): the
three passes in source order; the second component collects the names of all
columns the run assigned, in order. -/
def auto_engineer_features (df : DataFrame) : DataFrame × List String :=
  let r1 := extract_date_features df
  let r2 := create_numeric_bins r1.1
  let r3 := create_interactions r2.1
  (r3.1, r1.2 ++ r2.2 ++ r3.2)

/-! ## Concrete frames and engines used by the claim instances -/

/-- A configured engine over a small frame (backend usable). -/
def engCfg : NLQueryEngine :=
  { df := [("a", ⟨Dtype.int64, [Value.int 1]⟩)], llm_available := true, query_history := [] }

/-- An engine in the unconfigured-backend state. -/
def engNoCfg : NLQueryEngine :=
  { df := [("a", ⟨Dtype.int64, [Value.int 1]⟩)], llm_available := false, query_history := [] }

/-- An execution oracle under which every executed snippet raises. -/
def oracleRaise : ExecOracle := fun _ _ => ExecOutcome.raises

/-- The outlier-claim column: values [1, 2, 3, 4, 5, 100]. -/
def xColumn : Column :=
  ⟨Dtype.int64, [Value.int 1, Value.int 2, Value.int 3, Value.int 4, Value.int 5, Value.int 100]⟩

def dfX : DataFrame := [("x", xColumn)]

/-- The non-null numeric cells of the outlier-claim column. -/
def xCells : List Frac := numericCells xColumn.values

/-- Zero-row, one-column frame: the failing input of the null-percentage
guard claim. -/
def dfZeroRows : DataFrame := [("a", ⟨Dtype.int64, []⟩)]

/-- A 1000-row frame whose single column `customer_age` has 5 negative
values. -/
def ageColumn : Column :=
  ⟨Dtype.int64, List.replicate 5 (Value.int (-1)) ++ List.replicate 995 (Value.int 30)⟩

def df1000 : DataFrame := [("customer_age", ageColumn)]

/-- A frame where an input column name collides with a derived feature name:
`a` is numeric with six distinct values, so binning derives `a_bin`, which
already exists. -/
def keepColumn : Column :=
  ⟨Dtype.object, List.replicate 6 (Value.text "keep")⟩

def dfCollide : DataFrame :=
  [("a", ⟨Dtype.int64, [Value.int 10, Value.int 20, Value.int 30, Value.int 40,
     Value.int 50, Value.int 60]⟩),
   ("a_bin", keepColumn)]

/-- A numeric column with exactly five distinct values whose quantile edges
collapse: [1,1,1,1,1,1,2,3,4,5]. -/
def collapseColumn : Column :=
  ⟨Dtype.int64, [Value.int 1, Value.int 1, Value.int 1, Value.int 1, Value.int 1,
    Value.int 1, Value.int 2, Value.int 3, Value.int 4, Value.int 5]⟩

def dfCollapse : DataFrame := [("x", collapseColumn)]

/-- A frame on which feature engineering assigns nothing (one numeric column
with two distinct values). -/
def dfInert : DataFrame := [("b", ⟨Dtype.int64, [Value.int 1, Value.int 2]⟩)]

/-- A frame with one binnable numeric column, for the binning witness. -/
def dfBinnable : DataFrame :=
  [("a", ⟨Dtype.int64, [Value.int 10, Value.int 20, Value.int 30, Value.int 40,
     Value.int 50, Value.int 60]⟩)]

/-- Cell of a qcut bin column: null or one of the five labels. -/
def isBinCell (v : Value) : Prop :=
  v = Value.null ∨ ∃ l, l ∈ qcutLabels ∧ v = Value.text l

/-- What the amended binning claim asserts of an assigned bin-column name:
it is `{col}_bin` for a numeric input column with at least five distinct
values. -/
def binsFromQualifying (df : DataFrame) (n : String) : Prop :=
  ∃ col c, n = col ++ "_bin" ∧ List.lookup col df = some c ∧
    c.dtype.isNumeric = true ∧ 5 ≤ nuniqueVals c.values

/-- The column found under an assigned bin name: categorical, holding only
the five labels (so never more than five distinct bin labels). -/
def binsLabelled (d : DataFrame) (n : String) : Prop :=
  ∃ c2, List.lookup n d = some c2 ∧ c2.dtype = Dtype.category ∧
    ∀ v ∈ c2.values, isBinCell v

/-! ## Helper lemmas -/

lemma containsDangerous_of_tok {tok code : String} (htok : tok ∈ dangerous_keywords)
    (h : tok.toList <:+: code.toList) : containsDangerous code = true := by
  unfold containsDangerous
  rw [List.any_eq_true]
  refine ⟨tok, htok, ?_⟩
  simpa [substrOf] using h

lemma importos_dangerous {code : String} (h : "import os".toList <:+: code.toList) :
    containsDangerous code = true :=
  containsDangerous_of_tok (by decide)
    (List.IsInfix.trans (by decide : "import".toList <:+: "import os".toList) h)

lemma execute_rejects {code : String} (oracle : ExecOracle) (df : DataFrame)
    (h : containsDangerous code = true) :
    execute_query_code oracle df code = (none, false) := by
  simp [execute_query_code, h]

lemma str_append_ne_empty (a b : String) (h : a.toList ≠ []) : a ++ b ≠ "" := by
  intro he
  apply h
  cases a
  cases b
  simp only [String.ext_iff] at he
  exact (List.append_eq_nil.mp he).1

/-- Unfolding of `query` in the unconfigured state. -/
lemma query_unconfigured (eng : NLQueryEngine) (b : BackendOutcome) (oracle : ExecOracle)
    (q : String) (h : eng.llm_available = false) :
    eng.query b oracle q =
      { result := none
        explanation := "OpenAI API key not configured. Please set OPENAI_API_KEY in .env file."
        error := some ("API_KEY_MISSING")
        engine := eng
        executed := false } := by
  simp [NLQueryEngine.query, h]

/-- Unfolding of `query` when the backend call raises. -/
lemma query_backend_raises (eng : NLQueryEngine) (oracle : ExecOracle) (q msg : String)
    (h : eng.llm_available = true) :
    eng.query (BackendOutcome.raises msg) oracle q =
      { result := none
        explanation := "Error processing query: " ++ msg
        error := some msg
        engine := eng
        executed := false } := by
  simp [NLQueryEngine.query, h]

/-- Unfolding of `query` when the backend returns text. -/
lemma query_backend_ok (eng : NLQueryEngine) (oracle : ExecOracle) (q content : String)
    (h : eng.llm_available = true) :
    eng.query (BackendOutcome.ok content) oracle q =
      { result := (execute_query_code oracle eng.df (stripFences content)).1
        explanation := "Executed query: " ++ q ++ "\nGenerated code:\n" ++ stripFences content
        error := none
        engine := { eng with
          query_history := eng.query_history ++
            [{ query := q, code := stripFences content
               success := (execute_query_code oracle eng.df (stripFences content)).1.isSome }] }
        executed := (execute_query_code oracle eng.df (stripFences content)).2 } := by
  simp [NLQueryEngine.query, h]

lemma str_append_toList_ne_nil (a b : String) (h : a.toList ≠ []) :
    (a ++ b).toList ≠ [] := by
  cases a
  cases b
  intro he
  exact h (by simpa using (List.append_eq_nil.mp he).1)

/-! ## Claim theorems -/

/-- Claim C1, amended.  When the backend is unconfigured, `query` returns an
absent result, a non-empty explanation and the error kind `"API_KEY_MISSING"`
(the code's literal for the spec's `CONFIG_MISSING` state); when the backend
request raises, the result is absent and the error kind is non-absent.  But
in the denylist-rejection and runtime-execution-failure categories the
result is absent with a non-empty explanation while the returned error kind
is ABSENT (`query` line 122 returns `None` as the error in both), contrary
to the claim's "non-absent error kind in all three categories". -/
theorem claim_C1 (eng : NLQueryEngine) (b : BackendOutcome) (oracle : ExecOracle)
    (q msg content : String) :
    (eng.llm_available = false →
      (eng.query b oracle q).result = none ∧
      (eng.query b oracle q).explanation ≠ "" ∧
      (eng.query b oracle q).error = some ("API_KEY_MISSING")) ∧
    (eng.llm_available = true →
      (eng.query (BackendOutcome.raises msg) oracle q).result = none ∧
      (eng.query (BackendOutcome.raises msg) oracle q).explanation ≠ "" ∧
      (eng.query (BackendOutcome.raises msg) oracle q).error = some msg) ∧
    (eng.llm_available = true → containsDangerous (stripFences content) = true →
      (eng.query (BackendOutcome.ok content) oracle q).result = none ∧
      (eng.query (BackendOutcome.ok content) oracle q).explanation ≠ "" ∧
      (eng.query (BackendOutcome.ok content) oracle q).error = none ∧
      (eng.query (BackendOutcome.ok content) oracle q).executed = false) ∧
    (eng.llm_available = true → oracle (stripFences content) eng.df = ExecOutcome.raises →
      (eng.query (BackendOutcome.ok content) oracle q).result = none ∧
      (eng.query (BackendOutcome.ok content) oracle q).explanation ≠ "" ∧
      (eng.query (BackendOutcome.ok content) oracle q).error = none) := by
  refine ⟨fun h => ?_, fun h => ?_, fun h hd => ?_, fun h ho => ?_⟩
  · rw [query_unconfigured eng b oracle q h]
    refine ⟨rfl, ?_, rfl⟩
    show ("OpenAI API key not configured. Please set OPENAI_API_KEY in .env file." : String) ≠ ""
    decide
  · rw [query_backend_raises eng oracle q msg h]
    exact ⟨rfl, str_append_ne_empty _ msg (by decide), rfl⟩
  · rw [query_backend_ok eng oracle q content h]
    rw [execute_rejects oracle eng.df hd]
    refine ⟨rfl, ?_, rfl, rfl⟩
    exact str_append_ne_empty _ _
      (str_append_toList_ne_nil _ _ (str_append_toList_ne_nil _ q (by decide)))
  · rw [query_backend_ok eng oracle q content h]
    refine ⟨?_, ?_, rfl⟩
    · cases hd : containsDangerous (stripFences content) with
      | true => rw [execute_rejects oracle eng.df hd]
      | false => simp [execute_query_code, hd, ho]
    · exact str_append_ne_empty _ _
        (str_append_toList_ne_nil _ _ (str_append_toList_ne_nil _ q (by decide)))

/-- Claim C1, witness: the four cases of the amended theorem at concrete
inputs. -/
theorem claim_C1_witness :
    (engNoCfg.query (BackendOutcome.ok "x") oracleRaise "q").error = some ("API_KEY_MISSING") ∧
    (engCfg.query (BackendOutcome.raises "boom") oracleRaise "q").error = some "boom" ∧
    (engCfg.query (BackendOutcome.ok "import os") oracleRaise "q").error = none ∧
    (engCfg.query (BackendOutcome.ok "result = df.head()") oracleRaise "q").result = none :=
  ⟨((claim_C1 engNoCfg (BackendOutcome.ok "x") oracleRaise "q" "boom" "x").1 rfl).2.2,
   ((claim_C1 engCfg (BackendOutcome.ok "x") oracleRaise "q" "boom" "x").2.1 rfl).2.2,
   (((claim_C1 engCfg (BackendOutcome.ok "x") oracleRaise "q" "boom" "import os").2.2.1 rfl
      (by decide))).2.2.1,
   (((claim_C1 engCfg (BackendOutcome.ok "x") oracleRaise "q" "boom"
      "result = df.head()").2.2.2 rfl rfl)).1⟩

/-- Claim C1, counterexample to the claim as stated: with a configured
engine and a backend that returns the snippet "import os", the snippet is
denylist-rejected (nothing executes, the result is absent), yet the returned
error kind is absent - not non-absent as the claim requires for all three
error categories. -/
theorem claim_C1_counterexample :
    (engCfg.query (BackendOutcome.ok "import os") oracleRaise "q").result = none ∧
    (engCfg.query (BackendOutcome.ok "import os") oracleRaise "q").executed = false ∧
    (engCfg.query (BackendOutcome.ok "import os") oracleRaise "q").error = none := by
  refine ⟨rfl, rfl, rfl⟩

/-- Claim C2, confirmed.  A generated snippet containing the substring
"import os" contains the denylist token "import", so `execute_query_code`
rejects it before reaching `exec` (no part of it runs) and the query's
result is absent. -/
theorem claim_C2 (oracle : ExecOracle) (df : DataFrame) (eng : NLQueryEngine)
    (q content code : String) :
    ("import os".toList <:+: code.toList →
      execute_query_code oracle df code = (none, false)) ∧
    (eng.llm_available = true → "import os".toList <:+: (stripFences content).toList →
      (eng.query (BackendOutcome.ok content) oracle q).result = none ∧
      (eng.query (BackendOutcome.ok content) oracle q).executed = false) := by
  refine ⟨fun h => execute_rejects oracle df (importos_dangerous h), fun h hin => ?_⟩
  rw [query_backend_ok eng oracle q content h]
  rw [execute_rejects oracle eng.df (importos_dangerous hin)]
  exact ⟨rfl, rfl⟩

/-- Claim C2, witness at the concrete snippet "import os\nresult = df". -/
theorem claim_C2_witness :
    execute_query_code oracleRaise [] "import os\nresult = df" = (none, false) ∧
    (engCfg.query (BackendOutcome.ok "import os\nresult = df") oracleRaise "q").result = none :=
  ⟨(claim_C2 oracleRaise [] engCfg "q" "c" "import os\nresult = df").1 (by decide),
   ((claim_C2 oracleRaise [] engCfg "q" "import os\nresult = df" "c").2 rfl (by decide)).1⟩

/-- Claim C3, amended.  Only a call that obtains generated text from the
backend appends a history entry - exactly one, whose success flag is true
iff a non-absent result was produced.  The unconfigured-backend early return
(line 69) and a raising backend request (line 124) append nothing, contrary
to the claim's "every call appends exactly one entry". -/
theorem claim_C3 (eng : NLQueryEngine) (b : BackendOutcome) (oracle : ExecOracle)
    (q msg content : String) :
    (eng.llm_available = false →
      (eng.query b oracle q).engine.query_history = eng.query_history) ∧
    (eng.llm_available = true →
      (eng.query (BackendOutcome.raises msg) oracle q).engine.query_history =
        eng.query_history) ∧
    (eng.llm_available = true →
      (eng.query (BackendOutcome.ok content) oracle q).engine.query_history =
        eng.query_history ++
          [{ query := q, code := stripFences content
             success := ((eng.query (BackendOutcome.ok content) oracle q).result).isSome }]) := by
  refine ⟨fun h => ?_, fun h => ?_, fun h => ?_⟩
  · rw [query_unconfigured eng b oracle q h]
  · rw [query_backend_raises eng oracle q msg h]
  · rw [query_backend_ok eng oracle q content h]

/-- Claim C3, witness: a backend-ok call appends exactly its one entry. -/
theorem claim_C3_witness :
    (engCfg.query (BackendOutcome.ok "import os") oracleRaise "q").engine.query_history =
      [{ query := "q", code := "import os", success := false }] := by
  have h := (claim_C3 engCfg (BackendOutcome.ok "import os") oracleRaise "q" "m"
    "import os").2.2 rfl
  rw [h]
  rfl

/-- Claim C3, counterexample to the claim as stated: a call on the
unconfigured engine returns without appending any history entry (the history
stays empty), so not every call appends exactly one entry. -/
theorem claim_C3_counterexample :
    engNoCfg.query_history = [] ∧
    (engNoCfg.query (BackendOutcome.ok "result = df") oracleRaise "q").engine.query_history
      = [] :=
  ⟨rfl, rfl⟩

/-- Claim C10, confirmed.  The denylist test is plain substring containment
(`keyword in code`), so any snippet containing a denylist entry anywhere -
for instance code that only mentions a column named "cost", which contains
"os" - is refused with no execution and an absent result. -/
theorem claim_C10 (oracle : ExecOracle) (df : DataFrame) (code tok : String)
    (htok : tok ∈ dangerous_keywords) (h : tok.toList <:+: code.toList) :
    execute_query_code oracle df code = (none, false) ∧
    execute_query_code oracle df ("result = df[\x27cost\x27].sum()") = (none, false) ∧
    substrOf ("os") ("cost") = true :=
  ⟨execute_rejects oracle df (containsDangerous_of_tok htok h),
   execute_rejects oracle df (by decide),
   by decide⟩

/-- Claim C10, witness at the token "os" inside the snippet referencing the
column "cost". -/
theorem claim_C10_witness :
    execute_query_code oracleRaise [] ("result = df[\x27cost\x27].sum()") = (none, false) :=
  (claim_C10 oracleRaise [] ("result = df[\x27cost\x27].sum()") ("os")
    (by decide) (by decide)).1

lemma check_data_types_acc (now : Int) (df : DataFrame) (acc : TypeInfo) :
    df.foldl (typeStep now) acc =
      ⟨acc.issues ++ df.flatMap (fun p => ageIssues p.1 p.2 ++ moneyIssues p.1 p.2),
       acc.column_checks ++ df.map (fun p =>
         (p.1, ⟨dtypeStr p.2.dtype,
           ageIssues p.1 p.2 ++ futureIssues now p.1 p.2 ++ moneyIssues p.1 p.2⟩))⟩ := by
  induction df generalizing acc with
  | nil => simp
  | cons p rest ih =>
    rw [List.foldl_cons, ih]
    simp [typeStep, List.append_assoc]

lemma negCount_ageColumn : negCount ageColumn.values = 5 := by
  show (List.replicate 5 (Value.int (-1)) ++ List.replicate 995 (Value.int 30)).countP _ = 5
  rw [List.countP_append]
  have h1 : (List.replicate 5 (Value.int (-1))).countP
      (fun v => match v.toFrac with | some x => x.blt ⟨0, 1⟩ | none => false) = 5 := by
    rw [List.countP_eq_length.mpr]
    · simp
    · intro a ha
      rw [List.eq_of_mem_replicate ha]
      decide
  have h2 : (List.replicate 995 (Value.int 30)).countP
      (fun v => match v.toFrac with | some x => x.blt ⟨0, 1⟩ | none => false) = 0 := by
    rw [List.countP_eq_zero]
    intro a ha
    rw [List.eq_of_mem_replicate ha]
    decide
  rw [h1, h2]

lemma ageIssues_customer : ageIssues "customer_age" ageColumn =
    ["Found 5 negative values in \x27customer_age\x27 column"] := by
  unfold ageIssues
  rw [negCount_ageColumn]
  decide

lemma moneyIssues_customer : moneyIssues "customer_age" ageColumn = [] := by
  unfold moneyIssues
  have hmoney : moneyKeywords.any (fun kw => substrOf kw (pyLower "customer_age")) = false := by
    decide
  simp [hmoney]

/-- Claim C4: the code diverges from the claim at the zero-row frame.  The
totals do match the shape, but line 114 computes the null percentage as
numpy `0 / 0`, which is NaN (`none` in the embedding), not the claimed 0;
there is no zero-row guard in `detect_schema`. -/
theorem claim_C4 :
    (detect_schema 0 dfZeroRows).total_rows = 0 ∧
    (detect_schema 0 dfZeroRows).total_columns = 1 ∧
    (List.lookup "a" (detect_schema 0 dfZeroRows).columns).map
      (fun ci => ci.null_percentage) = some none := by
  refine ⟨rfl, rfl, rfl⟩

/-- Claim C5, confirmed.  On the column [1,2,3,4,5,100] the interpolated
quartiles are Q1 = 9/4 = 2.25 and Q3 = 19/4 = 4.75, the IQR is 5/2 = 2.5,
the default fences are [-3/2, 17/2] = [-1.5, 8.5]; the only cell outside
them is 100, which `check_outliers` reports for column "x" (count 1,
min = max = 100), and none of 1..5 is reported. -/
theorem claim_C5 :
    (match quantileOpt xCells ⟨1, 4⟩, quantileOpt xCells ⟨3, 4⟩ with
     | some q1, some q3 =>
       let iqr := q3.sub q1
       let lower := q1.sub (iqr_multiplier_default.mul iqr)
       let upper := q3.add (iqr_multiplier_default.mul iqr)
       q1.eqv ⟨9, 4⟩ && q3.eqv ⟨19, 4⟩ && iqr.eqv ⟨5, 2⟩ &&
         lower.eqv ⟨-3, 2⟩ && upper.eqv ⟨17, 2⟩ &&
         (xCells.filter (fun v => v.blt lower || upper.blt v) == [Frac.ofInt 100])
     | _, _ => false) = true ∧
    (check_outliers dfX iqr_multiplier_default).columns_with_outliers = ["x"] ∧
    (List.lookup "x" (check_outliers dfX iqr_multiplier_default).details).map
      (fun d => d.count == 1 && d.lower_bound.eqv ⟨-3, 2⟩ && d.upper_bound.eqv ⟨17, 2⟩ &&
        d.min_outlier.eqv ⟨100, 1⟩ && d.max_outlier.eqv ⟨100, 1⟩) = some true := by
  refine ⟨by decide, by decide, by decide⟩

/-- Claim C6, confirmed.  The embedded `validate_data` call hands the frame
back unchanged (every check is read-only), and a second call on that
unchanged frame produces the identical report. -/
theorem claim_C6 (now : Int) (df : DataFrame) :
    (validateRun now df).2 = df ∧
    validateRun now ((validateRun now df).2) = validateRun now df :=
  ⟨rfl, rfl⟩

/-- Claim C7, confirmed.  The aggregate issue list of the type check holds
exactly the semantic-constraint findings (negative age-like and money-like
values, in column order); the future-date findings appear only inside the
per-column checks; the top-level issues list stays empty; the warnings list
is one summary entry per check category that found something; and on the
1000-row frame whose single column `customer_age` has 5 negative values,
exactly one issue string is produced, naming the column and the count 5. -/
theorem claim_C7 (now : Int) (df : DataFrame) :
    (validate_data now df).type_validation.issues =
      df.flatMap (fun p => ageIssues p.1 p.2 ++ moneyIssues p.1 p.2) ∧
    (validate_data now df).type_validation.column_checks =
      df.map (fun p => (p.1, ⟨dtypeStr p.2.dtype,
        ageIssues p.1 p.2 ++ futureIssues now p.1 p.2 ++ moneyIssues p.1 p.2⟩)) ∧
    (validate_data now df).issues = [] ∧
    (validate_data now df).warnings =
      (if (check_missing_values df).has_missing then
        ["Found missing values in " ++ toString (check_missing_values df).columns_with_missing
          ++ " columns"] else []) ++
      (if 0 < (check_duplicates df).duplicate_count then
        ["Found " ++ toString (check_duplicates df).duplicate_count ++ " duplicate rows"]
       else []) ++
      (if !(check_outliers df iqr_multiplier_default).columns_with_outliers.isEmpty then
        ["Found outliers in "
          ++ toString (check_outliers df iqr_multiplier_default).columns_with_outliers.length
          ++ " columns"] else []) ∧
    dfLen df1000 = 1000 ∧
    (validate_data 0 df1000).type_validation.issues =
      ["Found 5 negative values in \x27customer_age\x27 column"] := by
  have hrep : ∀ (now2 : Int) (d : DataFrame),
      (validate_data now2 d).type_validation = check_data_types now2 d := fun _ _ => rfl
  refine ⟨?_, ?_, rfl, rfl, ?_, ?_⟩
  · rw [hrep]
    show (df.foldl (typeStep now) ⟨[], []⟩).issues = _
    rw [check_data_types_acc]
    rfl
  · rw [hrep]
    show (df.foldl (typeStep now) ⟨[], []⟩).column_checks = _
    rw [check_data_types_acc]
    rfl
  · show (List.replicate 5 (Value.int (-1)) ++ List.replicate 995 (Value.int 30)).length = 1000
    rw [List.length_append, List.length_replicate, List.length_replicate]
  · rw [hrep]
    show (df1000.foldl (typeStep 0) ⟨[], []⟩).issues = _
    rw [check_data_types_acc]
    show [] ++ (ageIssues "customer_age" ageColumn ++ moneyIssues "customer_age" ageColumn
      ++ []) = _
    rw [ageIssues_customer, moneyIssues_customer]
    rfl

lemma lookup_map_replace_ne (df : DataFrame) (name n : String) (c : Column) (h : n ≠ name) :
    List.lookup n (df.map (fun p => if p.1 = name then (p.1, c) else p)) =
      List.lookup n df := by
  induction df with
  | nil => rfl
  | cons p rest ih =>
    rw [List.map_cons]
    by_cases hp : p.1 = name
    · rw [if_pos hp]
      have hnp : (n == p.1) = false := beq_eq_false_iff_ne.mpr (fun he => h (he.trans hp))
      simp [List.lookup, hnp, ih]
    · rw [if_neg hp]
      by_cases hnp : n = p.1
      · simp [List.lookup, beq_iff_eq.mpr hnp]
      · simp [List.lookup, beq_eq_false_iff_ne.mpr hnp, ih]

lemma lookup_append_single_ne (df : DataFrame) (name n : String) (c : Column) (h : n ≠ name) :
    List.lookup n (df ++ [(name, c)]) = List.lookup n df := by
  induction df with
  | nil => simp [List.lookup, beq_eq_false_iff_ne.mpr h]
  | cons p rest ih =>
    by_cases hnp : n = p.1
    · simp [List.lookup, beq_iff_eq.mpr hnp]
    · simp [List.lookup, beq_eq_false_iff_ne.mpr hnp, ih]

lemma lookup_dfAssign_ne (df : DataFrame) (name n : String) (c : Column) (h : n ≠ name) :
    List.lookup n (dfAssign df name c) = List.lookup n df := by
  unfold dfAssign
  split
  · exact lookup_map_replace_ne df name n c h
  · exact lookup_append_single_ne df name n c h

lemma lookup_map_replace_self (df : DataFrame) (name : String) (c : Column)
    (hc : name ∈ dfNames df) :
    List.lookup name (df.map (fun p => if p.1 = name then (p.1, c) else p)) = some c := by
  induction df with
  | nil => simp [dfNames] at hc
  | cons p rest ih =>
    rw [List.map_cons]
    by_cases hp : p.1 = name
    · rw [if_pos hp]
      simp [List.lookup, beq_iff_eq.mpr hp.symm]
    · rw [if_neg hp]
      have hnp : ¬ name = p.1 := fun he => hp he.symm
      have hrest : name ∈ dfNames rest := by
        rcases (by simpa [dfNames] using hc : name = p.1 ∨ name ∈ dfNames rest) with h1 | h2
        · exact absurd h1 hnp
        · exact h2
      simp [List.lookup, beq_eq_false_iff_ne.mpr hnp, ih hrest]

lemma lookup_append_single_self (df : DataFrame) (name : String) (c : Column)
    (hnc : name ∉ dfNames df) :
    List.lookup name (df ++ [(name, c)]) = some c := by
  induction df with
  | nil => simp [List.lookup]
  | cons p rest ih =>
    have hne : ¬ name = p.1 := by
      intro he
      exact hnc (by simp [dfNames, he])
    have hrest : name ∉ dfNames rest := fun hm => hnc (by simp [dfNames] at hm ⊢; exact Or.inr hm)
    simp [List.lookup, beq_eq_false_iff_ne.mpr hne, ih hrest]

lemma lookup_dfAssign_self (df : DataFrame) (name : String) (c : Column) :
    List.lookup name (dfAssign df name c) = some c := by
  unfold dfAssign
  split
  case isTrue hc => exact lookup_map_replace_self df name c (by simpa using hc)
  case isFalse hc => exact lookup_append_single_self df name c (by simpa using hc)

lemma mem_dfNames_dfAssign (df : DataFrame) (name : String) (c : Column) (m : String)
    (h : m ∈ dfNames df) : m ∈ dfNames (dfAssign df name c) := by
  unfold dfAssign
  split
  · have e : dfNames (df.map fun p => if p.1 = name then (p.1, c) else p) = dfNames df := by
      unfold dfNames
      rw [List.map_map]
      congr 1
      funext p
      by_cases hp : p.1 = name <;> simp [hp]
    rw [e]
    exact h
  · unfold dfNames
    rw [List.map_append]
    exact List.mem_append_left _ h

lemma lookup_dfAssignMany_not_mem (ps : List (String × Column)) (df : DataFrame) (n : String)
    (h : n ∉ ps.map Prod.fst) : List.lookup n (dfAssignMany df ps) = List.lookup n df := by
  induction ps generalizing df with
  | nil => rfl
  | cons p ps ih =>
    have hne : n ≠ p.1 := fun he => h (by simp [he])
    have hps : n ∉ ps.map Prod.fst := fun hm => h (by simp [hm])
    show List.lookup n (dfAssignMany (dfAssign df p.1 p.2) ps) = _
    rw [ih (dfAssign df p.1 p.2) hps]
    exact lookup_dfAssign_ne df p.1 n p.2 hne

lemma mem_dfNames_dfAssignMany (ps : List (String × Column)) (df : DataFrame) (m : String)
    (h : m ∈ dfNames df) : m ∈ dfNames (dfAssignMany df ps) := by
  induction ps generalizing df with
  | nil => exact h
  | cons p ps ih =>
    exact ih (dfAssign df p.1 p.2) (mem_dfNames_dfAssign df p.1 p.2 m h)

lemma foldl_passStep_snd_prefix {α : Type}
    (f : DataFrame → List String → α → List (String × Column))
    (xs : List α) (d : DataFrame) (as : List String) :
    ∃ t, (xs.foldl (passStep f) (d, as)).2 = as ++ t := by
  induction xs generalizing d as with
  | nil => exact ⟨[], (List.append_nil as).symm⟩
  | cons x xs ih =>
    rw [List.foldl_cons]
    have hstep : passStep f (d, as) x =
        (dfAssignMany d (f d as x), as ++ (f d as x).map Prod.fst) := rfl
    rw [hstep]
    obtain ⟨t, ht⟩ := ih (dfAssignMany d (f d as x)) (as ++ (f d as x).map Prod.fst)
    exact ⟨(f d as x).map Prod.fst ++ t, by rw [ht, List.append_assoc]⟩

lemma foldl_passStep_lookup {α : Type}
    (f : DataFrame → List String → α → List (String × Column))
    (xs : List α) (d : DataFrame) (as : List String) (n : String)
    (h : n ∉ (xs.foldl (passStep f) (d, as)).2) :
    List.lookup n (xs.foldl (passStep f) (d, as)).1 = List.lookup n d := by
  induction xs generalizing d as with
  | nil => rfl
  | cons x xs ih =>
    rw [List.foldl_cons] at h ⊢
    have hstep : passStep f (d, as) x =
        (dfAssignMany d (f d as x), as ++ (f d as x).map Prod.fst) := rfl
    rw [hstep] at h ⊢
    have hn2 : n ∉ (f d as x).map Prod.fst := by
      intro hmem
      apply h
      obtain ⟨t, ht⟩ := foldl_passStep_snd_prefix f xs (dfAssignMany d (f d as x))
        (as ++ (f d as x).map Prod.fst)
      rw [ht]
      exact List.mem_append_left _ (List.mem_append_right _ hmem)
    rw [ih _ _ h]
    exact lookup_dfAssignMany_not_mem _ _ _ hn2

lemma foldl_passStep_names {α : Type}
    (f : DataFrame → List String → α → List (String × Column))
    (xs : List α) (d : DataFrame) (as : List String) (m : String)
    (h : m ∈ dfNames d) : m ∈ dfNames (xs.foldl (passStep f) (d, as)).1 := by
  induction xs generalizing d as with
  | nil => exact h
  | cons x xs ih =>
    rw [List.foldl_cons]
    have hstep : passStep f (d, as) x =
        (dfAssignMany d (f d as x), as ++ (f d as x).map Prod.fst) := rfl
    rw [hstep]
    exact ih _ _ (mem_dfNames_dfAssignMany _ d m h)

lemma extract_date_lookup (df : DataFrame) (n : String)
    (h : n ∉ (extract_date_features df).2) :
    List.lookup n (extract_date_features df).1 = List.lookup n df :=
  foldl_passStep_lookup datePairs (dfNames df) df [] n h

lemma extract_date_names (df : DataFrame) (m : String) (h : m ∈ dfNames df) :
    m ∈ dfNames (extract_date_features df).1 :=
  foldl_passStep_names datePairs (dfNames df) df [] m h

lemma bins_lookup (df : DataFrame) (n : String)
    (h : n ∉ (create_numeric_bins df).2) :
    List.lookup n (create_numeric_bins df).1 = List.lookup n df :=
  foldl_passStep_lookup binPairs (numericNames df) df [] n h

lemma bins_names (df : DataFrame) (m : String) (h : m ∈ dfNames df) :
    m ∈ dfNames (create_numeric_bins df).1 :=
  foldl_passStep_names binPairs (numericNames df) df [] m h

lemma inter_lookup (df : DataFrame) (n : String)
    (h : n ∉ (create_interactions df).2) :
    List.lookup n (create_interactions df).1 = List.lookup n df := by
  by_cases hc : 2 < (numericNames df).length
  · have e : create_interactions df =
        runPass interPairs df (ratioCandidates (numericNames df)) := by
      simp [create_interactions, hc]
    rw [e] at h ⊢
    exact foldl_passStep_lookup interPairs _ df [] n h
  · have e : create_interactions df = (df, []) := by
      simp [create_interactions, hc]
    rw [e]

lemma inter_names (df : DataFrame) (m : String) (h : m ∈ dfNames df) :
    m ∈ dfNames (create_interactions df).1 := by
  by_cases hc : 2 < (numericNames df).length
  · have e : create_interactions df =
        runPass interPairs df (ratioCandidates (numericNames df)) := by
      simp [create_interactions, hc]
    rw [e]
    exact foldl_passStep_names interPairs _ df [] m h
  · have e : create_interactions df = (df, []) := by
      simp [create_interactions, hc]
    rw [e]
    exact h

/-- Claim C8, amended.  Feature engineering is strictly additive provided no
name it assigns (derived `{col}_year`-style components, `{col}_bin` bins,
`{col1}_per_{col2}` ratios) already names an input column: every input
column is then still found unchanged under its name, and the output column
set is a superset of the input column set.  Without that proviso a derived
name overwrites the pre-existing column in place (see the counterexample). -/
theorem claim_C8 (df : DataFrame)
    (h : ∀ m ∈ (auto_engineer_features df).2, m ∉ dfNames df) :
    (∀ n ∈ dfNames df, List.lookup n (auto_engineer_features df).1 = List.lookup n df) ∧
    (∀ n ∈ dfNames df, n ∈ dfNames (auto_engineer_features df).1) := by
  have e1 : (auto_engineer_features df).1 =
      (create_interactions (create_numeric_bins (extract_date_features df).1).1).1 := rfl
  have e2 : (auto_engineer_features df).2 =
      (extract_date_features df).2 ++
        (create_numeric_bins (extract_date_features df).1).2 ++
        (create_interactions (create_numeric_bins (extract_date_features df).1).1).2 := rfl
  constructor
  · intro n hn
    have hnass : n ∉ (auto_engineer_features df).2 := fun hm => h n hm hn
    rw [e2] at hnass
    have h1 : n ∉ (extract_date_features df).2 := fun hm =>
      hnass (List.mem_append_left _ (List.mem_append_left _ hm))
    have h2 : n ∉ (create_numeric_bins (extract_date_features df).1).2 := fun hm =>
      hnass (List.mem_append_left _ (List.mem_append_right _ hm))
    have h3 : n ∉ (create_interactions (create_numeric_bins (extract_date_features df).1).1).2 :=
      fun hm => hnass (List.mem_append_right _ hm)
    rw [e1, inter_lookup _ _ h3, bins_lookup _ _ h2, extract_date_lookup _ _ h1]
  · intro n hn
    rw [e1]
    exact inter_names _ _ (bins_names _ _ (extract_date_names _ _ hn))

/-- Claim C8, counterexample to the claim as stated: in `dfCollide` the
input column `a_bin` (object dtype, constant text "keep") collides with the
bin feature derived from the numeric column `a`; `auto_engineer_features`
overwrites it in place, so not every input column keeps its values. -/
theorem claim_C8_counterexample :
    List.lookup "a_bin" dfCollide = some keepColumn ∧
    List.lookup "a_bin" (auto_engineer_features dfCollide).1 ≠ some keepColumn := by
  refine ⟨by decide, by decide⟩

/-- Claim C8, witness: on `dfInert` nothing is assigned, the proviso holds,
and the original column is preserved and still present. -/
theorem claim_C8_witness :
    List.lookup "b" (auto_engineer_features dfInert).1 = List.lookup "b" dfInert ∧
    "b" ∈ dfNames (auto_engineer_features dfInert).1 :=
  ⟨(claim_C8 dfInert (by decide)).1 "b" (by decide),
   (claim_C8 dfInert (by decide)).2 "b" (by decide)⟩

lemma binLabel_isBinCell (edges : List Frac) (v : Value) : isBinCell (binLabel edges v) := by
  unfold binLabel
  cases hv : v.toFrac with
  | none => exact Or.inl rfl
  | some x =>
    cases hg : qcutLabels.get? ((edges.drop 1).countP (fun e => e.blt x)) with
    | none =>
      simp only [hg]
      exact Or.inl rfl
    | some l =>
      simp only [hg]
      exact Or.inr ⟨l, List.get?_mem hg, rfl⟩

lemma qcutQ5_some {c c2 : Column} (h : qcutQ5 c = some c2) :
    c.dtype.isNumeric = true ∧ c2.dtype = Dtype.category ∧ ∀ v ∈ c2.values, isBinCell v := by
  cases hnum : c.dtype.isNumeric with
  | false => simp [qcutQ5, hnum] at h
  | true =>
    simp only [qcutQ5, hnum, if_true] at h
    split at h
    · obtain rfl := Option.some.inj h
      refine ⟨rfl, rfl, ?_⟩
      intro v hv
      obtain ⟨w, _, rfl⟩ := List.mem_map.mp hv
      exact binLabel_isBinCell _ w
    · exact absurd h (by simp)

lemma qcutQ5_category {c : Column} (h : c.dtype = Dtype.category) : qcutQ5 c = none := by
  simp [qcutQ5, h, Dtype.isNumeric]

lemma binPairs_none (d : DataFrame) (as : List String) (col : String)
    (h : List.lookup col d = none) : binPairs d as col = [] := by
  unfold binPairs
  rw [h]

lemma binPairs_small (d : DataFrame) (as : List String) (col : String) (c : Column)
    (h : List.lookup col d = some c) (h5 : nuniqueVals c.values < 5) :
    binPairs d as col = [] := by
  unfold binPairs
  rw [h]
  show (if nuniqueVals c.values < 5 then ([] : List (String × Column))
    else match qcutQ5 c with
      | some newc => [(col ++ "_bin", newc)]
      | none => []) = []
  rw [if_pos h5]

lemma binPairs_fail (d : DataFrame) (as : List String) (col : String) (c : Column)
    (h : List.lookup col d = some c) (h5 : ¬ nuniqueVals c.values < 5)
    (hq : qcutQ5 c = none) : binPairs d as col = [] := by
  unfold binPairs
  rw [h]
  show (if nuniqueVals c.values < 5 then ([] : List (String × Column))
    else match qcutQ5 c with
      | some newc => [(col ++ "_bin", newc)]
      | none => []) = []
  rw [if_neg h5, hq]

lemma binPairs_assign (d : DataFrame) (as : List String) (col : String) (c newc : Column)
    (h : List.lookup col d = some c) (h5 : ¬ nuniqueVals c.values < 5)
    (hq : qcutQ5 c = some newc) : binPairs d as col = [(col ++ "_bin", newc)] := by
  unfold binPairs
  rw [h]
  show (if nuniqueVals c.values < 5 then ([] : List (String × Column))
    else match qcutQ5 c with
      | some newc => [(col ++ "_bin", newc)]
      | none => []) = _
  rw [if_neg h5, hq]

lemma binPairs_cases (d : DataFrame) (as : List String) (col : String) :
    binPairs d as col = [] ∨
    ∃ c newc, List.lookup col d = some c ∧ ¬ nuniqueVals c.values < 5 ∧
      qcutQ5 c = some newc ∧ binPairs d as col = [(col ++ "_bin", newc)] := by
  cases hl : List.lookup col d with
  | none => exact Or.inl (binPairs_none d as col hl)
  | some c =>
    by_cases h5 : nuniqueVals c.values < 5
    · exact Or.inl (binPairs_small d as col c hl h5)
    · cases hq : qcutQ5 c with
      | none => exact Or.inl (binPairs_fail d as col c hl h5 hq)
      | some newc =>
        exact Or.inr ⟨c, newc, rfl, h5, hq, binPairs_assign d as col c newc hl h5 hq⟩

lemma bins_fold_inv (df : DataFrame) (xs : List String) (d : DataFrame) (as : List String)
    (h1 : ∀ m, m ∉ as → List.lookup m d = List.lookup m df)
    (h2 : ∀ n ∈ as, binsFromQualifying df n)
    (h3 : ∀ n ∈ as, binsLabelled d n) :
    (∀ n ∈ (xs.foldl (passStep binPairs) (d, as)).2, binsFromQualifying df n) ∧
    (∀ n ∈ (xs.foldl (passStep binPairs) (d, as)).2,
      binsLabelled (xs.foldl (passStep binPairs) (d, as)).1 n) := by
  induction xs generalizing d as with
  | nil => exact ⟨h2, h3⟩
  | cons col xs ih =>
    rw [List.foldl_cons]
    rcases binPairs_cases d as col with hps | ⟨c, newc, hl, h5, hq, hps⟩
    · have hstep : passStep binPairs (d, as) col = (d, as) := by
        simp [passStep, hps, dfAssignMany]
      rw [hstep]
      exact ih d as h1 h2 h3
    · have hstep : passStep binPairs (d, as) col =
          (dfAssign d (col ++ "_bin") newc, as ++ [col ++ "_bin"]) := by
        simp [passStep, hps, dfAssignMany]
      rw [hstep]
      have hcol_not_as : col ∉ as := by
        intro hmem
        obtain ⟨c2, hlook2, hcat, _⟩ := h3 col hmem
        rw [hl] at hlook2
        obtain rfl : c = c2 := Option.some.inj hlook2
        rw [qcutQ5_category hcat] at hq
        exact absurd hq (by simp)
      have hGoalA_new : binsFromQualifying df (col ++ "_bin") := by
        refine ⟨col, c, rfl, ?_, (qcutQ5_some hq).1, Nat.le_of_not_lt h5⟩
        rw [← h1 col hcol_not_as]
        exact hl
      refine ih (dfAssign d (col ++ "_bin") newc) (as ++ [col ++ "_bin"]) ?_ ?_ ?_
      · intro m hm
        have hmas : m ∉ as := fun x => hm (List.mem_append_left _ x)
        have hmne : m ≠ col ++ "_bin" := fun x => hm (by simp [x])
        rw [lookup_dfAssign_ne d _ m newc hmne]
        exact h1 m hmas
      · intro n hn
        rcases List.mem_append.mp hn with hn1 | hn2
        · exact h2 n hn1
        · rw [List.mem_singleton.mp hn2]
          exact hGoalA_new
      · intro n hn
        by_cases hne : n = col ++ "_bin"
        · subst hne
          exact ⟨newc, lookup_dfAssign_self d _ newc, (qcutQ5_some hq).2.1,
            (qcutQ5_some hq).2.2⟩
        · rcases List.mem_append.mp hn with hn1 | hn2
          · obtain ⟨c2, hlk, hcat, hlab⟩ := h3 n hn1
            refine ⟨c2, ?_, hcat, hlab⟩
            rw [lookup_dfAssign_ne d _ n newc hne]
            exact hlk
          · exact absurd (List.mem_singleton.mp hn2) hne

/-- Claim C9, amended.  Every bin column `create_numeric_bins` assigns comes
from a numeric input column with at least five distinct values, and the
assigned column is categorical holding only the labels Q1..Q5 (never more
than five distinct labels).  But when quantile edges collapse, the qcut call
fails (pandas raises a label-count mismatch once duplicate edges are
dropped, because five labels no longer fit), the exception is caught, and
the column is skipped with no bin column at all - the pass returns normally
but does not "produce fewer bins": on `dfCollapse` the output frame and the
assigned-name list are unchanged. -/
theorem claim_C9 (df : DataFrame) (n : String) (hn : n ∈ (create_numeric_bins df).2) :
    binsFromQualifying df n ∧ binsLabelled (create_numeric_bins df).1 n ∧
    create_numeric_bins dfCollapse = (dfCollapse, []) := by
  have h := bins_fold_inv df (numericNames df) df []
    (fun m _ => rfl)
    (fun n hn => absurd hn (List.not_mem_nil n))
    (fun n hn => absurd hn (List.not_mem_nil n))
  exact ⟨h.1 n hn, h.2 n hn, by decide⟩

/-- Claim C9, counterexample to the claim as stated: `collapseColumn` is
numeric with exactly five distinct values, so it qualifies for binning, but
its quantile edges collapse; the qcut attempt fails (modelled `none`) and no
`x_bin` column is produced at all - rather than "fewer bins produced
silently". -/
theorem claim_C9_counterexample :
    5 ≤ nuniqueVals collapseColumn.values ∧
    collapseColumn.dtype.isNumeric = true ∧
    qcutQ5 collapseColumn = none ∧
    "x_bin" ∉ dfNames (create_numeric_bins dfCollapse).1 := by
  refine ⟨by decide, rfl, by decide, by decide⟩

/-- Claim C9, witness: on `dfBinnable` the name `a_bin` is assigned and the
amended claim applies to it. -/
theorem claim_C9_witness :
    "a_bin" ∈ (create_numeric_bins dfBinnable).2 ∧ binsFromQualifying dfBinnable "a_bin" :=
  ⟨by decide, (claim_C9 dfBinnable "a_bin" (by decide)).1⟩
